import Mathlib

/-!
Verification development for the Portfolio_Chatbot document-ingestion
pipeline (backend/providers.py, backend/storage.py, backend/chat_router.py).

Python strings are embedded as `List Char` (`PyStr`), byte strings as
`List Nat` (`Bytes`).  Functions that can raise a Python exception are
embedded with result type `Except Unit _`; a `try/except` block in the
source becomes an explicit `match` on the guarded body.  External library
calls (PyMuPDF, pdfminer, zipfile decompression, the regex body of
`_extract_xml_text`) are passed in as explicit function parameters with
the exception behaviour the source assumes, so every theorem below is
quantified over their behaviour.
-/

deriving instance DecidableEq for Except

/-- Embedding of a Python `str`: its sequence of code points. -/
abbrev PyStr := List Char

/-- Embedding of a Python `bytes` value. -/
abbrev Bytes := List Nat

/-- Code points matched by Python's `\s` regex class / `str.isspace()` /
`str.strip()` (Unicode whitespace). -/
def pySpaceCodes : List Nat :=
  [0x09, 0x0a, 0x0b, 0x0c, 0x0d, 0x1c, 0x1d, 0x1e, 0x1f, 0x20, 0x85, 0xa0,
   0x1680, 0x2000, 0x2001, 0x2002, 0x2003, 0x2004, 0x2005, 0x2006, 0x2007,
   0x2008, 0x2009, 0x200a, 0x2028, 0x2029, 0x202f, 0x205f, 0x3000]

/-- Whether a character is whitespace in the sense of Python's `\s`. -/
def isPySpace (c : Char) : Bool :=
  pySpaceCodes.contains c.toNat

/-- Python `s.strip()`: remove leading and trailing whitespace. -/
def pyStrip (l : PyStr) : PyStr :=
  ((l.dropWhile isPySpace).reverse.dropWhile isPySpace).reverse

/-- Worker for `pySubWs`; the flag records whether the previous character
belonged to a whitespace run that has already emitted its single space. -/
def pySubWsAux : Bool → PyStr → PyStr
  | _, [] => []
  | inRun, c :: rest =>
    if isPySpace c then
      (if inRun then [] else [' ']) ++ pySubWsAux true rest
    else c :: pySubWsAux false rest

/-- Python `re.sub(r"\s+", " ", s)`: replace every maximal whitespace run
by a single space. -/
def pySubWs (l : PyStr) : PyStr :=
  pySubWsAux false l

/-- Python `s.lower()` (the source only ever lowercases ASCII names). -/
def pyLower (l : PyStr) : PyStr :=
  l.map Char.toLower

/-- Python `s.endswith(suffix)`. -/
def pyEndsWith (l suffix : PyStr) : Bool :=
  suffix.isSuffixOf l

/-- Python `s.startswith(p)`. -/
def pyStartsWith (l p : PyStr) : Bool :=
  p.isPrefixOf l

/-- Python `x or default` on an optional string (`None` and `""` are falsy). -/
def pyOrStr (a : Option PyStr) (b : PyStr) : PyStr :=
  match a with
  | none => b
  | some s => if s = [] then b else s

/-- Python `int(x or 0)` on an optional integer. -/
def pyOrInt (a : Option Int) : Int :=
  match a with
  | none => 0
  | some n => n

/-- SQL `COALESCE(a, b)`. -/
def coalesce {α : Type} (a b : Option α) : Option α :=
  match a with
  | some x => some x
  | none => b

/-- Lexicographic `≤` on code-point sequences, as used by Python `sorted`. -/
def strLe : PyStr → PyStr → Bool
  | [], _ => true
  | _ :: _, [] => false
  | a :: as, b :: bs => if a = b then strLe as bs else decide (a < b)

/-- Insertion step of the stable sort used for slide names. -/
def insertStr (s : PyStr) : List PyStr → List PyStr
  | [] => [s]
  | t :: rest => if strLe s t then s :: t :: rest else t :: insertStr s rest

/-- Python `sorted` on a list of strings. -/
def sortStrs : List PyStr → List PyStr
  | [] => []
  | s :: rest => insertStr s (sortStrs rest)

/-- Second-byte range check of a three-byte UTF-8 sequence. -/
def utf8Cont3Ok (b1 b2 : Nat) : Bool :=
  if b1 = 0xe0 then 0xa0 ≤ b2 && b2 ≤ 0xbf
  else if b1 = 0xed then 0x80 ≤ b2 && b2 ≤ 0x9f
  else 0x80 ≤ b2 && b2 ≤ 0xbf

/-- Second-byte range check of a four-byte UTF-8 sequence. -/
def utf8Cont4Ok (b1 b2 : Nat) : Bool :=
  if b1 = 0xf0 then 0x90 ≤ b2 && b2 ≤ 0xbf
  else if b1 = 0xf4 then 0x80 ≤ b2 && b2 ≤ 0x8f
  else 0x80 ≤ b2 && b2 ≤ 0xbf

/-- Plain continuation-byte check. -/
def utf8ContOk (b : Nat) : Bool :=
  0x80 ≤ b && b ≤ 0xbf

/-- Fuel-indexed worker for `decodeUtf8Ignore`; each step consumes at least
one byte, so `fuel = length` suffices.  On an ill-formed sequence the
decoder skips the maximal bad subpart and resynchronises, matching
CPython's `errors="ignore"` handler. -/
def decodeUtf8Go : Nat → Bytes → PyStr
  | 0, _ => []
  | _, [] => []
  | fuel + 1, b1 :: rest =>
    if b1 < 0x80 then
      Char.ofNat b1 :: decodeUtf8Go fuel rest
    else if 0xc2 ≤ b1 && b1 ≤ 0xdf then
      match rest with
      | [] => []
      | b2 :: rest2 =>
        if utf8ContOk b2 then
          Char.ofNat ((b1 - 0xc0) * 0x40 + (b2 - 0x80)) :: decodeUtf8Go fuel rest2
        else decodeUtf8Go fuel (b2 :: rest2)
    else if 0xe0 ≤ b1 && b1 ≤ 0xef then
      match rest with
      | [] => []
      | b2 :: rest2 =>
        if utf8Cont3Ok b1 b2 then
          match rest2 with
          | [] => []
          | b3 :: rest3 =>
            if utf8ContOk b3 then
              Char.ofNat ((b1 - 0xe0) * 0x1000 + (b2 - 0x80) * 0x40 + (b3 - 0x80)) ::
                decodeUtf8Go fuel rest3
            else decodeUtf8Go fuel (b3 :: rest3)
        else decodeUtf8Go fuel (b2 :: rest2)
    else if 0xf0 ≤ b1 && b1 ≤ 0xf4 then
      match rest with
      | [] => []
      | b2 :: rest2 =>
        if utf8Cont4Ok b1 b2 then
          match rest2 with
          | [] => []
          | b3 :: rest3 =>
            if utf8ContOk b3 then
              match rest3 with
              | [] => []
              | b4 :: rest4 =>
                if utf8ContOk b4 then
                  Char.ofNat ((b1 - 0xf0) * 0x40000 + (b2 - 0x80) * 0x1000 +
                      (b3 - 0x80) * 0x40 + (b4 - 0x80)) :: decodeUtf8Go fuel rest4
                else decodeUtf8Go fuel (b4 :: rest4)
            else decodeUtf8Go fuel (b3 :: rest3)
        else decodeUtf8Go fuel (b2 :: rest2)
    else decodeUtf8Go fuel rest

/-- Python `data.decode("utf-8", errors="ignore")`: UTF-8 decoding that
drops ill-formed subsequences instead of raising. -/
def decodeUtf8Ignore (data : Bytes) : PyStr :=
  decodeUtf8Go data.length data

/-- The trailing ellipsis marker `" ..."` the extractor appends when it
truncates. -/
def ellipsisMarker : PyStr := " ...".toList

/-- The truncation step shared by every extraction path:
`text[:max_chars] + (" ..." if len(text) > max_chars else "")`. -/
def truncWithEllipsis (maxChars : Nat) (t : PyStr) : PyStr :=
  t.take maxChars ++ (if maxChars < t.length then ellipsisMarker else [])

/-- The `f"[binary {len(data)} bytes]"` placeholder sentinel. -/
def binary_sentinel (n : Nat) : PyStr :=
  "[binary ".toList ++ (toString n).toList ++ " bytes]".toList

-- ===================== Content Extractor =====================

/-- A zip archive as seen through `zipfile.ZipFile`: member names with
their decompressed bytes. -/
abbrev ZipArchive := List (PyStr × Bytes)

/-- `zf.namelist()`. -/
def zipNamelist (zf : ZipArchive) : List PyStr :=
  zf.map Prod.fst

/-- `zf.read(name)`; only ever called on names from `namelist()`. -/
def zipRead (zf : ZipArchive) (nm : PyStr) : Bytes :=
  match zf.find? (fun e => e.fst = nm) with
  | some e => e.snd
  | none => []

/-- Behaviour of the external libraries the extractor calls.  Each field
returns `Except Unit _` because the corresponding Python call can raise;
`xmlTextBody` is the try-block body of `_extract_xml_text` (regex scan of
an XML part), whose value no claim depends on. -/
structure ExtractOracles where
  openZip : Bytes → Except Unit ZipArchive
  xmlTextBody : Bytes → PyStr → Except Unit PyStr
  fitzPages : Bytes → Except Unit (List PyStr)
  pdfminerText : Bytes → Nat → Except Unit PyStr

/-- `_extract_xml_text`: runs the regex body under `try/except`, returning
`""` on any exception. -/
def _extract_xml_text (o : ExtractOracles) (xml_bytes : Bytes) (tag : PyStr) : PyStr :=
  match o.xmlTextBody xml_bytes tag with
  | Except.ok t => t
  | Except.error _ => []

/-- `_OFFICE_EXTS`. -/
def _OFFICE_EXTS : List PyStr := [".docx".toList, ".pptx".toList, ".xlsx".toList]

/-- `_is_office_zip(name)`. -/
def _is_office_zip (name : PyStr) : Bool :=
  _OFFICE_EXTS.any (fun ext => pyEndsWith (pyLower name) ext)

/-- The format-specific XML text the try-block of `_preview_office_zip`
accumulates from an opened archive, before stripping. -/
def office_raw_text (o : ExtractOracles) (filename : PyStr) (zf : ZipArchive) : PyStr :=
  let nameLower := pyLower filename
  if pyEndsWith nameLower (".docx".toList) then
    if (zipNamelist zf).contains ("word/document.xml".toList) then
      ' ' :: _extract_xml_text o (zipRead zf ("word/document.xml".toList)) ("w:t".toList)
    else []
  else if pyEndsWith nameLower (".pptx".toList) then
    (sortStrs ((zipNamelist zf).filter (fun n =>
        pyStartsWith n ("ppt/slides/slide".toList) && pyEndsWith n (".xml".toList)))).flatMap
      (fun nm => ' ' :: _extract_xml_text o (zipRead zf nm) ("a:t".toList))
  else if pyEndsWith nameLower (".xlsx".toList) then
    if (zipNamelist zf).contains ("xl/sharedStrings.xml".toList) then
      _extract_xml_text o (zipRead zf ("xl/sharedStrings.xml".toList)) ("t".toList)
    else []
  else []

/-- The office path's text after `(text or "").strip()` — the collapsed
form the truncation step is applied to. -/
def office_text (o : ExtractOracles) (filename : PyStr) (zf : ZipArchive) : PyStr :=
  pyStrip (office_raw_text o filename zf)

/-- Try-block body of `_preview_office_zip`: open the archive, pull the
format-specific XML parts, strip and truncate.  `some` is an early
`return` with extracted text, `none` means fall through to the sentinel. -/
def office_attempt (o : ExtractOracles) (filename : PyStr) (data : Bytes)
    (max_chars : Nat) : Except Unit (Option PyStr) :=
  match o.openZip data with
  | Except.error e => Except.error e
  | Except.ok zf =>
    let text := office_text o filename zf
    if text ≠ [] then Except.ok (some (truncWithEllipsis max_chars text))
    else Except.ok none

/-- `_preview_office_zip`: any exception or an empty extraction yields the
`[binary N bytes]` sentinel. -/
def _preview_office_zip (o : ExtractOracles) (filename : PyStr) (data : Bytes)
    (max_chars : Nat) : Except Unit PyStr :=
  match office_attempt o filename data max_chars with
  | Except.ok (some t) => Except.ok t
  | Except.ok none => Except.ok (binary_sentinel data.length)
  | Except.error _ => Except.ok (binary_sentinel data.length)

/-- `" ".join(texts)`. -/
def joinSpace (ls : List PyStr) : PyStr :=
  (ls.intersperse [' ']).flatten

/-- The PyMuPDF branch's collapsed text: the first `max_pages` page texts
joined with spaces, then `" ".join(texts).strip()` and
`re.sub(r"\s+", " ", txt)` — the form the truncation step is applied to. -/
def pdf_collapsed_fitz (pages : List PyStr) (max_pages : Nat) : PyStr :=
  pySubWs (pyStrip (joinSpace (pages.take max_pages)))

/-- The pdfminer branch's collapsed text:
`re.sub(r"\s+", " ", txt).strip()` of the extracted buffer. -/
def pdf_collapsed_miner (raw : PyStr) : PyStr :=
  pyStrip (pySubWs raw)

/-- Try-block body of the PyMuPDF attempt in `_preview_pdf_bytes`. -/
def pdf_attempt_fitz (o : ExtractOracles) (data : Bytes) (max_pages max_chars : Nat) :
    Except Unit (Option PyStr) :=
  match o.fitzPages data with
  | Except.error e => Except.error e
  | Except.ok pages =>
    let txt := pdf_collapsed_fitz pages max_pages
    if txt ≠ [] then Except.ok (some (truncWithEllipsis max_chars txt))
    else Except.ok none

/-- Try-block body of the pdfminer fallback in `_preview_pdf_bytes`. -/
def pdf_attempt_miner (o : ExtractOracles) (data : Bytes) (max_pages max_chars : Nat) :
    Except Unit (Option PyStr) :=
  match o.pdfminerText data max_pages with
  | Except.error e => Except.error e
  | Except.ok raw =>
    let txt := pdf_collapsed_miner raw
    if txt ≠ [] then Except.ok (some (truncWithEllipsis max_chars txt))
    else Except.ok none

/-- `_preview_pdf_bytes`: PyMuPDF first, pdfminer second, sentinel last;
each attempt's exceptions are swallowed by its `try/except`. -/
def _preview_pdf_bytes (o : ExtractOracles) (data : Bytes) (max_pages max_chars : Nat) :
    Except Unit PyStr :=
  match pdf_attempt_fitz o data max_pages max_chars with
  | Except.ok (some t) => Except.ok t
  | _ =>
    match pdf_attempt_miner o data max_pages max_chars with
    | Except.ok (some t) => Except.ok t
    | _ => Except.ok (binary_sentinel data.length)

/-- Collapsed plain-text form of the first 4096 bytes:
`re.sub(r"\s+", " ", sample.decode("utf-8", errors="ignore")).strip()`. -/
def plain_text (data : Bytes) : PyStr :=
  pyStrip (pySubWs (decodeUtf8Ignore (data.take 4096)))

/-- Try-block body of the plain-text branch of `text_preview`; every step
(decode with `errors="ignore"`, regex sub, strip, slice) is total. -/
def plain_attempt (data : Bytes) (max_chars : Nat) : Except Unit PyStr :=
  Except.ok (truncWithEllipsis max_chars (plain_text data))

/-- `text_preview(title, data, max_chars)`: suffix-dispatch to the PDF,
office, or plain-text extraction path. -/
def text_preview (o : ExtractOracles) (title : PyStr) (data : Bytes)
    (max_chars : Nat) : Except Unit PyStr :=
  let name := pyLower title
  if pyEndsWith name (".pdf".toList) then
    _preview_pdf_bytes o data 3 900
  else if _is_office_zip name then
    _preview_office_zip o title data max_chars
  else
    match plain_attempt data max_chars with
    | Except.ok t => Except.ok t
    | Except.error _ => Except.ok (binary_sentinel data.length)

/-- Oracle instance whose library calls all fail; used to evaluate the
extractor on concrete inputs that never reach a library call. -/
def trivOracles : ExtractOracles :=
  { openZip := fun _ => Except.error ()
    xmlTextBody := fun _ _ => Except.error ()
    fitzPages := fun _ => Except.error ()
    pdfminerText := fun _ _ => Except.error () }

-- ===================== Token Store (backend/storage.py) =====================

/-- One row of the `user_connections` table (the `id` autoincrement column
is never read by the pipeline and is omitted). -/
structure ConnRow where
  access_token : Option PyStr
  refresh_token : Option PyStr
  token_type : PyStr
  scope : Option PyStr
  expires_at : Option Int
  meta_json : PyStr
  provider_account_id : Option PyStr
  provider_account_email : Option PyStr
  created_at : Int
  updated_at : Int
deriving DecidableEq

/-- The token dict passed to `save_connection`.  `token_type` holds the
value of `token.get("token_type", "Bearer")` (the refresh paths never set
the key, so it defaults to `"Bearer"`). -/
structure TokenDict where
  access_token : Option PyStr
  refresh_token : Option PyStr
  token_type : PyStr := "Bearer".toList
  scope : Option PyStr
  expires_at : Option Int
deriving DecidableEq

/-- The `user_connections` table, keyed by `(user_name, provider)`
(`UNIQUE(user_name, provider)`). -/
abbrev ConnDb := List ((PyStr × PyStr) × ConnRow)

/-- Row lookup by key. -/
def dbLookup : ConnDb → (PyStr × PyStr) → Option ConnRow
  | [], _ => none
  | (k, r) :: rest, key => if k = key then some r else dbLookup rest key

/-- `INSERT ... ON CONFLICT(user_name, provider) DO UPDATE`: replace the
existing row in place, or append a fresh one. -/
def dbUpsert : ConnDb → (PyStr × PyStr) → (Option ConnRow → ConnRow) → ConnDb
  | [], key, f => [(key, f none)]
  | (k, r) :: rest, key, f =>
    if k = key then (k, f (some r)) :: rest
    else (k, r) :: dbUpsert rest key f

/-- The key under which `save_connection` / `get_connection_row` store a
connection: `(user_name.strip(), provider.lower())`. -/
def connKey (user provider : PyStr) : PyStr × PyStr :=
  (pyStrip user, pyLower provider)

/-- The row written by `save_connection`'s upsert: every column takes the
new value except `refresh_token = COALESCE(excluded.refresh_token,
user_connections.refresh_token)` and `created_at`, which the UPDATE arm
leaves untouched. -/
def mergeRow (old : Option ConnRow) (now : Int) (tok : TokenDict)
    (pai pae : Option PyStr) (meta_json : PyStr) : ConnRow :=
  match old with
  | none =>
    { access_token := tok.access_token
      refresh_token := tok.refresh_token
      token_type := tok.token_type
      scope := tok.scope
      expires_at := tok.expires_at
      meta_json := meta_json
      provider_account_id := pai
      provider_account_email := pae
      created_at := now
      updated_at := now }
  | some o =>
    { access_token := tok.access_token
      refresh_token := coalesce tok.refresh_token o.refresh_token
      token_type := tok.token_type
      scope := tok.scope
      expires_at := tok.expires_at
      meta_json := meta_json
      provider_account_id := pai
      provider_account_email := pae
      created_at := o.created_at
      updated_at := now }

/-- The serialised metadata `json.dumps(meta or {})`; `None` becomes the
empty JSON object. -/
def metaJson (meta : Option PyStr) : PyStr :=
  match meta with
  | none => "\x7b\x7d".toList
  | some m => m

/-- `save_connection(user_name, provider, token, ...)`. -/
def save_connection (db : ConnDb) (now : Int) (user provider : PyStr)
    (tok : TokenDict) (pai pae : Option PyStr) (meta : Option PyStr) : ConnDb :=
  dbUpsert db (connKey user provider) (fun old => mergeRow old now tok pai pae (metaJson meta))

/-- `get_connection_row(user_name, provider)` (also aliased as
`get_provider_token`). -/
def get_connection_row (db : ConnDb) (user provider : PyStr) : Option ConnRow :=
  dbLookup db (connKey user provider)

-- ===================== Token refresh (backend/providers.py) =====================

/-- The `_extract_tokens` view of a stored row (a row read back from the
database always has the token columns, so the `meta_json` fallback branch
of `_extract_tokens` is never taken). -/
structure Tok where
  access_token : Option PyStr
  refresh_token : Option PyStr
  expires_at : Int
  scope : Option PyStr
deriving DecidableEq

/-- `_extract_tokens(row)` on a present row; `expires_at` is
`int(row.get("expires_at") or 0)`. -/
def _extract_tokens (row : ConnRow) : Tok :=
  { access_token := row.access_token
    refresh_token := row.refresh_token
    expires_at := pyOrInt row.expires_at
    scope := row.scope }

/-- `_extract_tokens(_read_token_row(...))`: a missing row becomes the
empty dict, whose every lookup yields `None`. -/
def rowTok : Option ConnRow → Tok
  | none => { access_token := none, refresh_token := none, expires_at := 0, scope := none }
  | some r => _extract_tokens r

/-- A parsed 200-response body from a provider token endpoint.
`expires_in` is read as `int(js.get("expires_in", 3600))`. -/
structure RefreshResp where
  access_token : Option PyStr
  refresh_token : Option PyStr
  scope : Option PyStr
  expires_in : Option Int
deriving DecidableEq

/-- The `new_tokens` dict both providers build from a 200 refresh
response: `expires_at = now + int(js.get("expires_in", 3600))` and
`refresh_token = js.get("refresh_token") or rt`. -/
def refreshNewTokens (now : Int) (js : RefreshResp) (rt : PyStr) : TokenDict :=
  { access_token := js.access_token
    refresh_token := some (pyOrStr js.refresh_token rt)
    scope := js.scope
    expires_at := some (now + (js.expires_in.getD 3600)) }

/-- The refresh token `GoogleProvider.refresh_token` reads:
`(row.get("refresh_token") or _extract_tokens(row).get("refresh_token") or "").strip()`. -/
def googleRefreshRt (row : Option ConnRow) : PyStr :=
  pyStrip (pyOrStr (row.bind (fun r => r.refresh_token))
    (pyOrStr (rowTok row).refresh_token []))

/-- `GoogleProvider.refresh_token`: `cfg` is whether client id/secret are
configured; `resp = none` models a transport exception (propagates),
`some none` a non-200 (logged, returns leaving the store unchanged),
`some (some js)` a 200 body that is merged via `save_connection`. -/
def google_refresh (cfg : Bool) (now : Int) (row : Option ConnRow)
    (resp : Option (Option RefreshResp)) : Except Unit (Option ConnRow) :=
  let rt := googleRefreshRt row
  if rt = [] then Except.ok row
  else if cfg = false then Except.error ()
  else
    match resp with
    | none => Except.error ()
    | some none => Except.ok row
    | some (some js) =>
      Except.ok (some (mergeRow row now (refreshNewTokens now js rt) none none (metaJson none)))

-- ===================== OneDrive listing (backend/providers.py) =====================

/-- A document dict produced by a provider (`id` / `title` / `content`). -/
structure Doc where
  id : PyStr
  title : PyStr
  content : PyStr
deriving DecidableEq

/-- A Graph drive item: `"folder" in it` is modelled by `isFolder`. -/
structure DriveItem where
  id : PyStr
  name : PyStr
  isFolder : Bool
deriving DecidableEq

/-- A Graph listing response: status code and the `value` array. -/
structure GetResp where
  status : Nat
  items : List DriveItem
deriving DecidableEq

/-- The network script a OneDrive listing call consumes: queued responses
of the token endpoint (`none` = non-200) and of the Graph GETs. -/
structure Net where
  refreshQ : List (Option RefreshResp)
  getQ : List GetResp
deriving DecidableEq

/-- Counters of outbound calls, for stating how many refreshes and GETs a
run performs. -/
structure CallTrace where
  refreshCalls : Nat
  getCalls : Nat
deriving DecidableEq

/-- State threaded through a OneDrive listing call: the stored
`(user, "onedrive")` row, the pending network responses, the counters. -/
structure OdState where
  row : Option ConnRow
  net : Net
  tr : CallTrace
deriving DecidableEq

/-- The refresh token `OneDriveProvider.refresh_token` reads:
`(tok.get("refresh_token") or "").strip()`. -/
def onedriveRefreshRt (row : Option ConnRow) : PyStr :=
  pyStrip (pyOrStr (rowTok row).refresh_token [])

/-- `OneDriveProvider.refresh_token`: raises when the refresh token is
missing, credentials are unconfigured, the transport fails, or the token
endpoint answers non-200; on 200 it writes the merged record through
`save_connection`. -/
def onedrive_refresh (cfg : Bool) (now : Int) (s : OdState) : Except Unit OdState :=
  let rt := onedriveRefreshRt s.row
  if rt = [] then Except.error ()
  else if cfg = false then Except.error ()
  else
    match s.net.refreshQ with
    | [] => Except.error ()
    | resp :: rq =>
      let s := { s with net := { s.net with refreshQ := rq },
                        tr := { s.tr with refreshCalls := s.tr.refreshCalls + 1 } }
      match resp with
      | none => Except.error ()
      | some js =>
        Except.ok { s with
          row := some (mergeRow s.row now (refreshNewTokens now js rt) none none (metaJson none)) }

/-- `OneDriveProvider._get_valid_token`: refresh when the stored expiry is
within 60 seconds of `now`, then return the stored access token (or ""). -/
def onedrive_get_valid_token (cfg : Bool) (now : Int) (s : OdState) :
    Except Unit (PyStr × OdState) :=
  let tok := rowTok s.row
  if tok.expires_at < now + 60 then
    match onedrive_refresh cfg now s with
    | Except.error e => Except.error e
    | Except.ok s2 => Except.ok (pyOrStr (rowTok s2.row).access_token [], s2)
  else Except.ok (pyOrStr tok.access_token [], s)

/-- One Graph GET, consuming the next queued response; an empty queue
models a transport exception (which `list_my_drive` does not catch). -/
def graph_get (s : OdState) : Except Unit (GetResp × OdState) :=
  match s.net.getQ with
  | [] => Except.error ()
  | r :: gq =>
    Except.ok (r, { s with net := { s.net with getQ := gq },
                           tr := { s.tr with getCalls := s.tr.getCalls + 1 } })

/-- The per-item dicts `list_my_drive` builds from `value[:limit]`. -/
def onedrive_docs (items : List DriveItem) (limit : Nat) : List Doc :=
  (items.take limit).map (fun it =>
    if it.isFolder then { id := it.id, title := "[폴더] ".toList ++ it.name, content := [] }
    else { id := it.id, title := it.name, content := "[OneDrive item]".toList })

/-- `OneDriveProvider.list_my_drive`: validate the token, issue the GET;
on a 401 refresh once, re-validate, and retry the same GET once; any
non-200 result yields the empty list. -/
def list_my_drive (cfg : Bool) (now : Int) (limit : Nat) (s0 : OdState) :
    Except Unit (List Doc × OdState) :=
  match onedrive_get_valid_token cfg now s0 with
  | Except.error e => Except.error e
  | Except.ok (_token, s1) =>
    match graph_get s1 with
    | Except.error e => Except.error e
    | Except.ok (r1, s2) =>
      let retried : Except Unit (GetResp × OdState) :=
        if r1.status = 401 then
          match onedrive_refresh cfg now s2 with
          | Except.error e => Except.error e
          | Except.ok s3 =>
            match onedrive_get_valid_token cfg now s3 with
            | Except.error e => Except.error e
            | Except.ok (_t2, s4) => graph_get s4
        else Except.ok (r1, s2)
      match retried with
      | Except.error e => Except.error e
      | Except.ok (r, s) =>
        if r.status ≠ 200 then Except.ok ([], s)
        else Except.ok (onedrive_docs r.items limit, s)

-- ===================== Registry and orchestrator =====================

/-- The three registered provider adapters. -/
inductive ProviderKind
  | google
  | onedrive
  | notion
deriving DecidableEq

/-- The `REGISTRY` dict. -/
def REGISTRY : List (PyStr × ProviderKind) :=
  [("google".toList, ProviderKind.google),
   ("onedrive".toList, ProviderKind.onedrive),
   ("notion".toList, ProviderKind.notion)]

/-- `REGISTRY.get(key)`. -/
def registryGet : List (PyStr × ProviderKind) → PyStr → Option ProviderKind
  | [], _ => none
  | (k, v) :: rest, key => if k = key then some v else registryGet rest key

/-- `get_documents_from_provider(user, provider, link, max_files)`:
lowercase the provider name, return `[]` when it is not registered,
otherwise dispatch to that adapter's `enumerate_from_link` (passed in as
`enum`). -/
def get_documents_from_provider
    (enum : ProviderKind → PyStr → PyStr → Nat → Except Unit (List Doc))
    (user provider link : PyStr) (max_files : Nat) : Except Unit (List Doc) :=
  match registryGet REGISTRY (pyLower provider) with
  | none => Except.ok []
  | some p => enum p user link max_files

/-- A document with the provenance tag `doc["provider"] = provider`
attached by the orchestrator loop. -/
structure TaggedDoc where
  provider : PyStr
  doc : Doc
deriving DecidableEq

/-- Tagging one document with its provider name. -/
def tagDoc (p : PyStr) (d : Doc) : TaggedDoc :=
  { provider := p, doc := d }

/-- The document-collection loop of `chat_ask`: each selected provider's
enumeration runs inside `try/except`, so a failing provider (token
refresh errors included) is logged and contributes nothing while the
loop continues with the rest. -/
def chat_collect (enum : PyStr → Except Unit (List Doc)) :
    List PyStr → Except Unit (List TaggedDoc)
  | [] => Except.ok []
  | p :: rest =>
    let here : List TaggedDoc :=
      match enum p with
      | Except.ok docs => docs.map (tagDoc p)
      | Except.error _ => []
    match chat_collect enum rest with
    | Except.ok acc => Except.ok (here ++ acc)
    | Except.error e => Except.error e

/-- Whether an enumeration call succeeded. -/
def enumOk (e : Except Unit (List Doc)) : Bool :=
  match e with
  | Except.ok _ => true
  | Except.error _ => false

/-- The documents an enumeration call produced (none on failure). -/
def enumDocs (e : Except Unit (List Doc)) : List Doc :=
  match e with
  | Except.ok d => d
  | Except.error _ => []

-- ===================== Download throttle =====================

/-- Synchronisation-relevant actions of a download helper. -/
inductive DlEvent
  | acquire
  | httpGet
  | release
deriving DecidableEq

/-- Capacity of the process-wide `_DL_SEMAPHORE = asyncio.Semaphore(4)`. -/
def DL_SEMAPHORE_CAPACITY : Nat := 4

/-- Actions performed by `_http_get_bytes`, for either outcome of the GET:
`async with _DL_SEMAPHORE` acquires before the request and releases on
exit of the block, exception or not. -/
def http_get_bytes_events (_success : Bool) : List DlEvent :=
  [DlEvent.acquire, DlEvent.httpGet, DlEvent.release]

/-- Actions performed by `GoogleProvider._download_file`: a direct GET,
with no semaphore interaction. -/
def google_download_file_events : List DlEvent :=
  [DlEvent.httpGet]

/-- Actions performed by `GoogleProvider._export_native_file`: a direct
GET, with no semaphore interaction. -/
def google_export_native_file_events : List DlEvent :=
  [DlEvent.httpGet]

-- ===================== Sample data for witnesses =====================

/-- A stored connection row with a refresh token and a far-future expiry. -/
def sampleRow : ConnRow :=
  { access_token := some ("a".toList), refresh_token := some ("r".toList),
    token_type := "Bearer".toList, scope := none, expires_at := some 1000000,
    meta_json := "\x7b\x7d".toList, provider_account_id := none,
    provider_account_email := none, created_at := 0, updated_at := 0 }

/-- A 200 refresh body without a new refresh token, `expires_in = 3600`. -/
def sampleJs : RefreshResp :=
  { access_token := some ("c".toList), refresh_token := none, scope := none,
    expires_in := some 3600 }

/-- A refresh-style token dict whose `refresh_token` key is `None`. -/
def sampleTok : TokenDict :=
  { access_token := some ("na".toList), refresh_token := none,
    scope := some ("s2".toList), expires_at := some 500 }

/-- A one-row store for the `(alice, google)` connection. -/
def sampleDb : ConnDb :=
  [(connKey ("alice".toList) ("google".toList), sampleRow)]

/-- A OneDrive state holding `sampleRow` and one queued refresh response. -/
def sampleOdState : OdState :=
  { row := some sampleRow,
    net := { refreshQ := [some sampleJs], getQ := [] },
    tr := { refreshCalls := 0, getCalls := 0 } }

/-- A 200 refresh body whose token expires immediately (`expires_in = 0`). -/
def odCexJs : RefreshResp :=
  { access_token := some ("b".toList), refresh_token := none, scope := none,
    expires_in := some 0 }

/-- A listing state whose first GET answers 401 and whose first refresh
returns an immediately-expired token. -/
def odCexState : OdState :=
  { row := some sampleRow,
    net := { refreshQ := [some odCexJs, some sampleJs],
             getQ := [GetResp.mk 401 [], GetResp.mk 200 []] },
    tr := { refreshCalls := 0, getCalls := 0 } }

-- ===================== Helper lemmas =====================

/-- Upserting then looking up the same key returns the merged row. -/
theorem dbLookup_dbUpsert (db : ConnDb) (key : PyStr × PyStr)
    (f : Option ConnRow → ConnRow) :
    dbLookup (dbUpsert db key f) key = some (f (dbLookup db key)) := by
  induction db with
  | nil => simp [dbUpsert, dbLookup]
  | cons kv rest ih =>
    obtain ⟨k, r⟩ := kv
    by_cases hk : k = key
    · simp [dbUpsert, dbLookup, hk]
    · simp [dbUpsert, dbLookup, hk, ih]

/-- A key absent from the registry's key column is not found. -/
theorem registryGet_eq_none (l : List (PyStr × ProviderKind)) (key : PyStr)
    (h : key ∉ l.map Prod.fst) : registryGet l key = none := by
  induction l with
  | nil => rfl
  | cons kv rest ih =>
    obtain ⟨k, v⟩ := kv
    simp only [List.map_cons, List.mem_cons, not_or] at h
    simp only [registryGet, if_neg (Ne.symm h.1)]
    exact ih h.2

/-- Whitespace collapsing maps all-whitespace input to all-whitespace
output. -/
theorem pySubWsAux_all_space (l : PyStr) (h : l.all isPySpace = true) :
    ∀ b, (pySubWsAux b l).all isPySpace = true := by
  induction l with
  | nil => intro b; rfl
  | cons c rest ih =>
    intro b
    simp only [List.all_cons, Bool.and_eq_true] at h
    simp only [pySubWsAux, h.1, if_true]
    cases b <;> simp [List.all_append, ih h.2, isPySpace, pySpaceCodes]

/-- Stripping an all-whitespace string yields the empty string. -/
theorem pyStrip_all_space (l : PyStr) (h : l.all isPySpace = true) :
    pyStrip l = [] := by
  have h1 : l.dropWhile isPySpace = [] := by
    induction l with
    | nil => rfl
    | cons c rest ih =>
      simp only [List.all_cons, Bool.and_eq_true] at h
      simp [List.dropWhile, h.1, ih h.2]
  unfold pyStrip
  rw [h1]
  rfl

/-- The collapsed plain-text form of whitespace-only bytes is empty. -/
theorem plain_text_all_space (data : Bytes)
    (hw : (decodeUtf8Ignore (data.take 4096)).all isPySpace = true) :
    plain_text data = [] := by
  unfold plain_text pySubWs
  exact pyStrip_all_space _ (pySubWsAux_all_space _ hw false)

/-- `mergeRow` always stores the incoming expiry. -/
theorem mergeRow_expires_at (old : Option ConnRow) (now : Int) (tok : TokenDict)
    (pai pae : Option PyStr) (m : PyStr) :
    (mergeRow old now tok pai pae m).expires_at = tok.expires_at := by
  cases old <;> rfl

/-- `mergeRow` stores `COALESCE(new refresh token, old refresh token)`. -/
theorem mergeRow_refresh_token (old : Option ConnRow) (now : Int) (tok : TokenDict)
    (pai pae : Option PyStr) (m : PyStr) :
    (mergeRow old now tok pai pae m).refresh_token =
      coalesce tok.refresh_token (old.bind (fun o => o.refresh_token)) := by
  cases old <;> cases h : tok.refresh_token <;> simp [mergeRow, coalesce, h]

/-- `_preview_pdf_bytes` never propagates an exception. -/
theorem preview_pdf_bytes_ok (o : ExtractOracles) (data : Bytes) (mp mc : Nat) :
    ∃ t, _preview_pdf_bytes o data mp mc = Except.ok t := by
  unfold _preview_pdf_bytes
  split
  · exact ⟨_, rfl⟩
  · split
    · exact ⟨_, rfl⟩
    · exact ⟨_, rfl⟩

/-- `_preview_office_zip` never propagates an exception. -/
theorem preview_office_zip_ok (o : ExtractOracles) (filename : PyStr) (data : Bytes)
    (mc : Nat) : ∃ t, _preview_office_zip o filename data mc = Except.ok t := by
  unfold _preview_office_zip
  split
  · exact ⟨_, rfl⟩
  · exact ⟨_, rfl⟩
  · exact ⟨_, rfl⟩

-- ===================== Claim theorems =====================

/-- C1, counterexample: a successful Google refresh at `now = 1000` with
`expires_in = 3600` stores `expires_at = 4600 = now + expires_in`, not
`now + expires_in - 60` as the claim states. -/
theorem C1_counterexample :
    (google_refresh true 1000 (some sampleRow) (some (some sampleJs))).toOption.map
      (fun r => r.map (fun row => row.expires_at)) = some (some (some 4600)) ∧
    (4600 : Int) ≠ 1000 + 3600 - 60 := by
  constructor
  · rfl
  · decide

/-- C1, amended: on every successful refresh, both providers store
`expires_at = now + expires_in` (default 3600) with no 60-second margin
subtracted; the margin is instead applied at read time, where
`_get_valid_token` refreshes whenever `expires_at < now + 60`. -/
theorem C1_refresh_expiry (now : Int) (row0 : ConnRow) (js : RefreshResp)
    (s : OdState) (rq : List (Option RefreshResp))
    (hg : googleRefreshRt (some row0) ≠ [])
    (ho : onedriveRefreshRt s.row ≠ [])
    (hq : s.net.refreshQ = some js :: rq) :
    (∃ r, google_refresh true now (some row0) (some (some js)) = Except.ok (some r) ∧
      r.expires_at = some (now + js.expires_in.getD 3600)) ∧
    (∃ s2 r2, onedrive_refresh true now s = Except.ok s2 ∧ s2.row = some r2 ∧
      r2.expires_at = some (now + js.expires_in.getD 3600)) := by
  constructor
  · have h : google_refresh true now (some row0) (some (some js)) =
        Except.ok (some (mergeRow (some row0) now
          (refreshNewTokens now js (googleRefreshRt (some row0))) none none
          (metaJson none))) := by
      simp only [google_refresh]
      rw [if_neg hg]
      rfl
    exact ⟨_, h, by rw [mergeRow_expires_at]; rfl⟩
  · have h : ∃ s2, onedrive_refresh true now s = Except.ok s2 ∧
        s2.row = some (mergeRow s.row now
          (refreshNewTokens now js (onedriveRefreshRt s.row)) none none
          (metaJson none)) := by
      simp only [onedrive_refresh]
      rw [if_neg ho, hq]
      exact ⟨_, rfl, rfl⟩
    obtain ⟨s2, h1, h2⟩ := h
    exact ⟨s2, _, h1, h2, by rw [mergeRow_expires_at]; rfl⟩

/-- C1, witness for `C1_refresh_expiry` at concrete inputs. -/
theorem C1_refresh_expiry_witness :
    (googleRefreshRt (some sampleRow) ≠ [] ∧
     onedriveRefreshRt sampleOdState.row ≠ [] ∧
     sampleOdState.net.refreshQ = some sampleJs :: []) ∧
    ((∃ r, google_refresh true 1000 (some sampleRow) (some (some sampleJs)) =
        Except.ok (some r) ∧
      r.expires_at = some (1000 + sampleJs.expires_in.getD 3600)) ∧
    (∃ s2 r2, onedrive_refresh true 1000 sampleOdState = Except.ok s2 ∧
      s2.row = some r2 ∧
      r2.expires_at = some (1000 + sampleJs.expires_in.getD 3600))) :=
  ⟨⟨by decide, by decide, by decide⟩,
    C1_refresh_expiry 1000 sampleRow sampleJs sampleOdState []
      (by decide) (by decide) (by decide)⟩

/-- C2, counterexample: for the plain-text input `b"aaa"` with budget 2,
the extractor returns `"aa ..."`, whose length is budget + marker length,
but which is not a prefix of the collapsed-whitespace input `"aaa"`. -/
theorem C2_counterexample :
    text_preview trivOracles ("a.txt".toList) [97, 97, 97] 2 =
      Except.ok ("aa ...".toList) ∧
    2 < (plain_text [97, 97, 97]).length ∧
    ¬ ("aa ...".toList <+: plain_text [97, 97, 97]) := by
  refine ⟨rfl, by decide, by decide⟩

/-- C2, amended: on each of the extractor's truncation paths — plain
text (budget `max_chars`), PDF via PyMuPDF or via the pdfminer fallback
(budget 900), and office files (budget `max_chars`) — when the
collapsed-whitespace text exceeds the budget, the returned string is the
first `budget` characters of that collapsed text followed by the
4-character marker `" ..."`; hence its length is budget + marker length,
and the returned string with the marker removed (not the full output) is
a prefix of the collapsed text. -/
theorem C2_truncation (o : ExtractOracles) (title : PyStr) (data : Bytes)
    (max_chars : Nat) :
    (pyEndsWith (pyLower title) (".pdf".toList) = false →
     _is_office_zip (pyLower title) = false →
     max_chars < (plain_text data).length →
     text_preview o title data max_chars =
       Except.ok ((plain_text data).take max_chars ++ ellipsisMarker)) ∧
    (∀ pages, pyEndsWith (pyLower title) (".pdf".toList) = true →
     o.fitzPages data = Except.ok pages →
     900 < (pdf_collapsed_fitz pages 3).length →
     text_preview o title data max_chars =
       Except.ok ((pdf_collapsed_fitz pages 3).take 900 ++ ellipsisMarker)) ∧
    (∀ raw, pyEndsWith (pyLower title) (".pdf".toList) = true →
     o.fitzPages data = Except.error () →
     o.pdfminerText data 3 = Except.ok raw →
     900 < (pdf_collapsed_miner raw).length →
     text_preview o title data max_chars =
       Except.ok ((pdf_collapsed_miner raw).take 900 ++ ellipsisMarker)) ∧
    (∀ zf, pyEndsWith (pyLower title) (".pdf".toList) = false →
     _is_office_zip (pyLower title) = true →
     o.openZip data = Except.ok zf →
     max_chars < (office_text o title zf).length →
     text_preview o title data max_chars =
       Except.ok ((office_text o title zf).take max_chars ++ ellipsisMarker)) ∧
    (∀ (t : PyStr) (b : Nat), b < t.length →
     truncWithEllipsis b t = t.take b ++ ellipsisMarker ∧
     (truncWithEllipsis b t).length = b + ellipsisMarker.length ∧
     t.take b <+: t) := by
  refine ⟨?_, ?_, ?_, ?_, ?_⟩
  · intro hp ho hl
    simp only [text_preview]
    rw [hp, ho]
    simp only [if_neg (show ¬ (false = true) by decide), plain_attempt,
      truncWithEllipsis, if_pos hl]
  · intro pages hp hfitz hl
    have hne : pdf_collapsed_fitz pages 3 ≠ [] := by
      intro h
      rw [h] at hl
      simp at hl
    simp only [text_preview]
    rw [hp]
    simp only [if_pos (show (true = true) by rfl), if_true, _preview_pdf_bytes,
      pdf_attempt_fitz, hfitz, if_pos hne, truncWithEllipsis, if_pos hl]
  · intro raw hp hfitz hminer hl
    have hne : pdf_collapsed_miner raw ≠ [] := by
      intro h
      rw [h] at hl
      simp at hl
    have hfa : pdf_attempt_fitz o data 3 900 = Except.error () := by
      simp only [pdf_attempt_fitz, hfitz]
    simp only [text_preview]
    rw [hp]
    simp only [if_pos (show (true = true) by rfl), if_true, _preview_pdf_bytes, hfa,
      pdf_attempt_miner, hminer, if_pos hne, truncWithEllipsis, if_pos hl]
  · intro zf hp ho hzip hl
    have hne : office_text o title zf ≠ [] := by
      intro h
      rw [h] at hl
      simp at hl
    simp only [text_preview]
    rw [hp, ho]
    simp only [if_neg (show ¬ (false = true) by decide),
      if_pos (show (true = true) by rfl), if_true, _preview_office_zip,
      office_attempt, hzip, if_pos hne, truncWithEllipsis, if_pos hl]
  · intro t b hb
    refine ⟨?_, ?_, List.take_prefix _ _⟩
    · simp only [truncWithEllipsis, if_pos hb]
    · simp only [truncWithEllipsis, if_pos hb]
      rw [List.length_append, List.length_take]
      omega

/-- Oracles for the C2 witness: a one-page 901-character PDF text layer
and a `.docx` archive whose body XML yields five characters. -/
def c2Oracles : ExtractOracles :=
  { openZip := fun _ => Except.ok [("word/document.xml".toList, [])]
    xmlTextBody := fun _ _ => Except.ok ("bbbbb".toList)
    fitzPages := fun _ => Except.ok [List.replicate 901 'a']
    pdfminerText := fun _ _ => Except.ok (List.replicate 901 'a') }

/-- Oracles for the C2 witness's pdfminer branch: PyMuPDF fails, pdfminer
returns 901 characters. -/
def c2MinerOracles : ExtractOracles :=
  { c2Oracles with fitzPages := fun _ => Except.error () }

set_option maxRecDepth 8000 in
/-- C2, witness for `C2_truncation`: one concrete instance per truncation
path (plain text, PDF via PyMuPDF, PDF via pdfminer, office), plus a
concrete instance of the shared output-shape conjunct. -/
theorem C2_truncation_witness :
    (pyEndsWith (pyLower ("a.txt".toList)) (".pdf".toList) = false ∧
     _is_office_zip (pyLower ("a.txt".toList)) = false ∧
     2 < (plain_text [97, 97, 97]).length ∧
     text_preview trivOracles ("a.txt".toList) [97, 97, 97] 2 =
       Except.ok ((plain_text [97, 97, 97]).take 2 ++ ellipsisMarker)) ∧
    (pyEndsWith (pyLower ("x.pdf".toList)) (".pdf".toList) = true ∧
     c2Oracles.fitzPages [] = Except.ok [List.replicate 901 'a'] ∧
     900 < (pdf_collapsed_fitz [List.replicate 901 'a'] 3).length ∧
     text_preview c2Oracles ("x.pdf".toList) [] 600 =
       Except.ok ((pdf_collapsed_fitz [List.replicate 901 'a'] 3).take 900 ++
         ellipsisMarker)) ∧
    (pyEndsWith (pyLower ("x.pdf".toList)) (".pdf".toList) = true ∧
     c2MinerOracles.fitzPages [] = Except.error () ∧
     c2MinerOracles.pdfminerText [] 3 = Except.ok (List.replicate 901 'a') ∧
     900 < (pdf_collapsed_miner (List.replicate 901 'a')).length ∧
     text_preview c2MinerOracles ("x.pdf".toList) [] 600 =
       Except.ok ((pdf_collapsed_miner (List.replicate 901 'a')).take 900 ++
         ellipsisMarker)) ∧
    (pyEndsWith (pyLower ("d.docx".toList)) (".pdf".toList) = false ∧
     _is_office_zip (pyLower ("d.docx".toList)) = true ∧
     c2Oracles.openZip [] = Except.ok [("word/document.xml".toList, [])] ∧
     2 < (office_text c2Oracles ("d.docx".toList)
       [("word/document.xml".toList, [])]).length ∧
     text_preview c2Oracles ("d.docx".toList) [] 2 =
       Except.ok ((office_text c2Oracles ("d.docx".toList)
         [("word/document.xml".toList, [])]).take 2 ++ ellipsisMarker)) ∧
    (2 < (plain_text [97, 97, 97]).length ∧
     truncWithEllipsis 2 (plain_text [97, 97, 97]) =
       (plain_text [97, 97, 97]).take 2 ++ ellipsisMarker ∧
     (truncWithEllipsis 2 (plain_text [97, 97, 97])).length =
       2 + ellipsisMarker.length ∧
     (plain_text [97, 97, 97]).take 2 <+: plain_text [97, 97, 97]) :=
  ⟨⟨by decide, by decide, by decide,
      (C2_truncation trivOracles ("a.txt".toList) [97, 97, 97] 2).1
        (by decide) (by decide) (by decide)⟩,
   ⟨by decide, by decide, by decide,
      (C2_truncation c2Oracles ("x.pdf".toList) [] 600).2.1
        [List.replicate 901 'a'] (by decide) (by decide) (by decide)⟩,
   ⟨by decide, by decide, by decide, by decide,
      (C2_truncation c2MinerOracles ("x.pdf".toList) [] 600).2.2.1
        (List.replicate 901 'a') (by decide) (by decide) (by decide) (by decide)⟩,
   ⟨by decide, by decide, by decide, by decide,
      (C2_truncation c2Oracles ("d.docx".toList) [] 2).2.2.2.1
        [("word/document.xml".toList, [])] (by decide) (by decide) (by decide)
        (by decide)⟩,
   ⟨by decide,
      (C2_truncation trivOracles ("a.txt".toList) [97, 97, 97] 2).2.2.2.2
        (plain_text [97, 97, 97]) 2 (by decide)⟩⟩

/-- C3: when the refresh response carries no refresh token
(`tok.refresh_token = None`), the upsert of `save_connection` keeps the
previously stored refresh token while access token, scope, and expiry
take the new values. -/
theorem C3_refresh_token_preserved (db : ConnDb) (now : Int)
    (user provider : PyStr) (tok : TokenDict) (pai pae meta : Option PyStr)
    (old : ConnRow)
    (hold : get_connection_row db user provider = some old)
    (hrt : tok.refresh_token = none) :
    ∃ r, get_connection_row (save_connection db now user provider tok pai pae meta)
        user provider = some r ∧
      r.refresh_token = old.refresh_token ∧
      r.access_token = tok.access_token ∧
      r.scope = tok.scope ∧
      r.expires_at = tok.expires_at := by
  refine ⟨mergeRow (some old) now tok pai pae (metaJson meta), ?_, ?_, rfl, rfl, rfl⟩
  · unfold get_connection_row save_connection at *
    rw [dbLookup_dbUpsert, hold]
  · rw [mergeRow_refresh_token, hrt]
    rfl

/-- C3, witness for `C3_refresh_token_preserved` at concrete inputs. -/
theorem C3_refresh_token_preserved_witness :
    (get_connection_row sampleDb ("alice".toList) ("google".toList) = some sampleRow ∧
     sampleTok.refresh_token = none) ∧
    (∃ r, get_connection_row
        (save_connection sampleDb 77 ("alice".toList) ("google".toList) sampleTok
          none none none) ("alice".toList) ("google".toList) = some r ∧
      r.refresh_token = sampleRow.refresh_token ∧
      r.access_token = sampleTok.access_token ∧
      r.scope = sampleTok.scope ∧
      r.expires_at = sampleTok.expires_at) :=
  ⟨⟨by decide, by decide⟩,
    C3_refresh_token_preserved sampleDb 77 ("alice".toList) ("google".toList)
      sampleTok none none none sampleRow (by decide) (by decide)⟩

/-- C7, counterexample: `GoogleProvider._download_file` issues its GET
without ever acquiring the download-throttle permit, so not every
outbound per-item byte download goes through the throttle. -/
theorem C7_counterexample :
    DlEvent.httpGet ∈ google_download_file_events ∧
    DlEvent.acquire ∉ google_download_file_events ∧
    DlEvent.release ∉ google_download_file_events := by
  decide

/-- C7, amended: only downloads routed through `_http_get_bytes`
(OneDrive share-item content) acquire the process-wide capacity-4
throttle before the GET and release it exactly once whether the GET
succeeds or fails; `GoogleProvider._download_file` and
`_export_native_file` issue their GETs without touching the throttle. -/
theorem C7_throttle_events (success : Bool) :
    http_get_bytes_events success =
      [DlEvent.acquire, DlEvent.httpGet, DlEvent.release] ∧
    (http_get_bytes_events success).count DlEvent.acquire = 1 ∧
    (http_get_bytes_events success).count DlEvent.release = 1 ∧
    DL_SEMAPHORE_CAPACITY = 4 ∧
    DlEvent.acquire ∉ google_download_file_events ∧
    DlEvent.acquire ∉ google_export_native_file_events := by
  cases success <;> decide



/-- C4: for every library behaviour, filename, byte input, and budget,
`text_preview` returns a string and never propagates an exception — every
fallible step sits under a `try/except` that falls back to the
`[binary N bytes]` sentinel. -/
theorem C4_extractor_total (o : ExtractOracles) (title : PyStr) (data : Bytes)
    (max_chars : Nat) :
    ∃ t, text_preview o title data max_chars = Except.ok t := by
  simp only [text_preview]
  split
  · exact preview_pdf_bytes_ok o data 3 900
  · split
    · exact preview_office_zip_ok o title data max_chars
    · exact ⟨_, rfl⟩

/-- C5: the document-collection loop of `chat_ask` never raises, and its
result is exactly the concatenation, in order, of the tagged documents of
the providers whose enumeration succeeded — a failing provider (token
refresh failures included) contributes zero documents while the others
are still returned. -/
theorem C5_provider_isolation (enum : PyStr → Except Unit (List Doc))
    (ps : List PyStr) :
    chat_collect enum ps =
      Except.ok ((ps.filter (fun p => enumOk (enum p))).flatMap
        (fun p => (enumDocs (enum p)).map (tagDoc p))) := by
  induction ps with
  | nil => rfl
  | cons p rest ih =>
    simp only [chat_collect, ih]
    cases h : enum p with
    | ok docs => simp [List.filter_cons, h, enumOk, enumDocs]
    | error e => simp [List.filter_cons, h, enumOk, enumDocs]

/-- C8: `get_documents_from_provider` with a provider name that is not a
registered key (after lowercasing) returns the empty list without calling
any adapter and without raising. -/
theorem C8_unknown_provider_empty
    (enum : ProviderKind → PyStr → PyStr → Nat → Except Unit (List Doc))
    (user provider link : PyStr) (max_files : Nat)
    (h : pyLower provider ∉ REGISTRY.map Prod.fst) :
    get_documents_from_provider enum user provider link max_files = Except.ok [] := by
  unfold get_documents_from_provider
  rw [registryGet_eq_none _ _ h]

/-- C8, witness for `C8_unknown_provider_empty`: the unregistered provider
name `"Dropbox"`. -/
theorem C8_unknown_provider_empty_witness :
    (pyLower ("Dropbox".toList) ∉ REGISTRY.map Prod.fst) ∧
    get_documents_from_provider (fun _ _ _ _ => Except.ok [])
      ("alice".toList) ("Dropbox".toList) [] 30 = Except.ok [] :=
  ⟨by decide,
    C8_unknown_provider_empty (fun _ _ _ _ => Except.ok [])
      ("alice".toList) ("Dropbox".toList) [] 30 (by decide)⟩

/-- C9: because `save_connection` and `get_connection_row` both key by
`(user.strip(), provider.lower())`, a read after a write succeeds for any
provider spelling that agrees with the written one up to letter case, and
it returns exactly the merged row the write stored. -/
theorem C9_roundtrip_case_insensitive (db : ConnDb) (now : Int)
    (user provider p : PyStr) (tok : TokenDict) (pai pae meta : Option PyStr)
    (hp : pyLower p = pyLower provider) :
    get_connection_row (save_connection db now user provider tok pai pae meta) user p =
      some (mergeRow (get_connection_row db user provider) now tok pai pae
        (metaJson meta)) := by
  unfold get_connection_row save_connection connKey
  rw [hp, dbLookup_dbUpsert]

/-- C9, witness for `C9_roundtrip_case_insensitive`: write under
`"Google"`, read back under `"GOOGLE"`. -/
theorem C9_roundtrip_case_insensitive_witness :
    (pyLower ("GOOGLE".toList) = pyLower ("Google".toList)) ∧
    get_connection_row
        (save_connection sampleDb 77 ("alice".toList) ("Google".toList) sampleTok
          none none none) ("alice".toList) ("GOOGLE".toList) =
      some (mergeRow (get_connection_row sampleDb ("alice".toList) ("Google".toList))
        77 sampleTok none none (metaJson none)) :=
  ⟨by decide,
    C9_roundtrip_case_insensitive sampleDb 77 ("alice".toList) ("Google".toList)
      ("GOOGLE".toList) sampleTok none none none (by decide)⟩

/-- C10: for a filename outside the PDF/office suffixes and bytes whose
first 4096 bytes decode (ignoring invalid sequences) to whitespace only,
`text_preview` returns the empty string, not the `[binary N bytes]`
sentinel or any other placeholder. -/
theorem C10_whitespace_empty (o : ExtractOracles) (title : PyStr) (data : Bytes)
    (max_chars : Nat)
    (hp : pyEndsWith (pyLower title) (".pdf".toList) = false)
    (ho : _is_office_zip (pyLower title) = false)
    (hw : (decodeUtf8Ignore (data.take 4096)).all isPySpace = true) :
    text_preview o title data max_chars = Except.ok [] := by
  have h1 : plain_text data = [] := plain_text_all_space data hw
  simp only [text_preview]
  rw [hp, ho]
  simp only [if_neg (show ¬ (false = true) by decide), plain_attempt,
    truncWithEllipsis, h1]
  simp

/-- C10, witness for `C10_whitespace_empty`: `"notes.txt"` with the
whitespace bytes `b" \n\t"`. -/
theorem C10_whitespace_empty_witness :
    (pyEndsWith (pyLower ("notes.txt".toList)) (".pdf".toList) = false ∧
     _is_office_zip (pyLower ("notes.txt".toList)) = false ∧
     (decodeUtf8Ignore (([32, 10, 9] : Bytes).take 4096)).all isPySpace = true) ∧
    text_preview trivOracles ("notes.txt".toList) [32, 10, 9] 600 = Except.ok [] :=
  ⟨⟨by decide, by decide, by decide⟩,
    C10_whitespace_empty trivOracles ("notes.txt".toList) [32, 10, 9] 600
      (by decide) (by decide) (by decide)⟩

/-- C6, counterexample: a listing call whose first GET answers 401 and
whose first refresh returns an immediately-expiring token performs two
token-endpoint refresh calls (the 401 handler's refresh plus a second one
inside the subsequent `_get_valid_token`), not exactly one. -/
theorem C6_counterexample :
    (list_my_drive true 100 50 odCexState).toOption.map
      (fun r => (r.2.tr.refreshCalls, r.2.tr.getCalls)) = some (2, 2) := by
  rfl

/-- C6, amended: on a 401 the code refreshes once and then re-validates
the token before the single retry; when the initial token was still valid
and the refresh response reports `expires_in` of at least 60 seconds, the
re-validation performs no further refresh, so exactly one refresh and
exactly one retry occur, and a non-200 retry yields the empty list with
no further refreshes or retries (both network queues are exhausted).
(When the refresh response expires within 60 seconds the re-validation
refreshes again, which is the counterexample above.) -/
theorem C6_single_retry (now : Int) (limit : Nat) (row0 : ConnRow)
    (js : RefreshResp) (r1 r2 : GetResp) (tr0 : CallTrace)
    (hvalid : ¬ ((rowTok (some row0)).expires_at < now + 60))
    (hrt : onedriveRefreshRt (some row0) ≠ [])
    (hei : 60 ≤ js.expires_in.getD 3600)
    (h401 : r1.status = 401)
    (hfail : r2.status ≠ 200) :
    ∃ s, list_my_drive true now limit
        { row := some row0, net := { refreshQ := [some js], getQ := [r1, r2] },
          tr := tr0 } = Except.ok ([], s) ∧
      s.tr.refreshCalls = tr0.refreshCalls + 1 ∧
      s.tr.getCalls = tr0.getCalls + 2 ∧
      s.net.refreshQ = [] ∧ s.net.getQ = [] := by
  have h1 : onedrive_get_valid_token true now
      { row := some row0, net := { refreshQ := [some js], getQ := [r1, r2] }, tr := tr0 } =
      Except.ok (pyOrStr (rowTok (some row0)).access_token [],
        { row := some row0, net := { refreshQ := [some js], getQ := [r1, r2] }, tr := tr0 }) := by
    simp only [onedrive_get_valid_token]
    rw [if_neg hvalid]
  have h3 : onedrive_refresh true now
      { row := some row0, net := { refreshQ := [some js], getQ := [r2] },
        tr := { refreshCalls := tr0.refreshCalls, getCalls := tr0.getCalls + 1 } } =
      Except.ok
        { row := some (mergeRow (some row0) now
            (refreshNewTokens now js (onedriveRefreshRt (some row0))) none none (metaJson none)),
          net := { refreshQ := [], getQ := [r2] },
          tr := { refreshCalls := tr0.refreshCalls + 1, getCalls := tr0.getCalls + 1 } } := by
    simp only [onedrive_refresh]
    rw [if_neg hrt]
    rfl
  have hvalid2 : ¬ ((rowTok (some (mergeRow (some row0) now
      (refreshNewTokens now js (onedriveRefreshRt (some row0))) none none
      (metaJson none)))).expires_at < now + 60) := by
    simp only [rowTok, _extract_tokens, mergeRow_expires_at, refreshNewTokens, pyOrInt]
    omega
  have h4 : onedrive_get_valid_token true now
      { row := some (mergeRow (some row0) now
          (refreshNewTokens now js (onedriveRefreshRt (some row0))) none none (metaJson none)),
        net := { refreshQ := [], getQ := [r2] },
        tr := { refreshCalls := tr0.refreshCalls + 1, getCalls := tr0.getCalls + 1 } } =
      Except.ok (pyOrStr (rowTok (some (mergeRow (some row0) now
          (refreshNewTokens now js (onedriveRefreshRt (some row0))) none none
          (metaJson none)))).access_token [],
        { row := some (mergeRow (some row0) now
            (refreshNewTokens now js (onedriveRefreshRt (some row0))) none none (metaJson none)),
          net := { refreshQ := [], getQ := [r2] },
          tr := { refreshCalls := tr0.refreshCalls + 1, getCalls := tr0.getCalls + 1 } }) := by
    simp only [onedrive_get_valid_token]
    rw [if_neg hvalid2]
  have h5 : list_my_drive true now limit
      { row := some row0, net := { refreshQ := [some js], getQ := [r1, r2] }, tr := tr0 } =
      Except.ok (([] : List Doc),
        { row := some (mergeRow (some row0) now
            (refreshNewTokens now js (onedriveRefreshRt (some row0))) none none (metaJson none)),
          net := { refreshQ := [], getQ := [] },
          tr := { refreshCalls := tr0.refreshCalls + 1, getCalls := tr0.getCalls + 2 } }) := by
    simp only [list_my_drive, h1, graph_get, h3, h4, h401]
    simp [hfail]
  exact ⟨_, h5, rfl, rfl, rfl, rfl⟩

/-- C6, witness for `C6_single_retry` at a concrete script: valid stored
token, 401 then 500 from Graph, one refresh response with
`expires_in = 3600`. -/
theorem C6_single_retry_witness :
    (¬ ((rowTok (some sampleRow)).expires_at < 100 + 60) ∧
     onedriveRefreshRt (some sampleRow) ≠ [] ∧
     60 ≤ sampleJs.expires_in.getD 3600 ∧
     (GetResp.mk 401 []).status = 401 ∧
     (GetResp.mk 500 []).status ≠ 200) ∧
    (∃ s, list_my_drive true 100 50
        { row := some sampleRow,
          net := { refreshQ := [some sampleJs], getQ := [GetResp.mk 401 [], GetResp.mk 500 []] },
          tr := CallTrace.mk 0 0 } = Except.ok ([], s) ∧
      s.tr.refreshCalls = (CallTrace.mk 0 0).refreshCalls + 1 ∧
      s.tr.getCalls = (CallTrace.mk 0 0).getCalls + 2 ∧
      s.net.refreshQ = [] ∧ s.net.getQ = []) :=
  ⟨⟨by decide, by decide, by decide, by decide, by decide⟩,
    C6_single_retry 100 50 sampleRow sampleJs (GetResp.mk 401 []) (GetResp.mk 500 [])
      (CallTrace.mk 0 0) (by decide) (by decide) (by decide) (by decide) (by decide)⟩
